import Mathlib

/-!
Verification of the paste-target resolution and delivery subsystem of
DICTATE_WIN, shallowly embedded from src/window_manager.py.

Pure functions of the Python module become Lean functions; the module-global
caches become explicit state arguments; the Win32, pyperclip and pynput calls
become an oracle record OSEnv describing every possible behaviour of the
underlying OS (success values and raised exceptions alike), so that the
try/except structure of the code is mirrored by total Lean functions.
-/

namespace DictateWin

/-! Python string primitives, embedded structurally over character lists so
that every definition reduces in the kernel. Lowercasing models the ASCII
action of Python str.lower, the fragment the paste rules exercise. -/

/-- Boolean test that the first character list is an initial segment of the
second one. -/
def leadsList : List Char → List Char → Bool
  | [], _ => true
  | _ :: _, [] => false
  | a :: as, b :: bs => a = b && leadsList as bs

/-- Boolean test that the first character list occurs contiguously inside the
second one. An empty needle occurs in every haystack, as in Python. -/
def occursIn : List Char → List Char → Bool
  | n, [] => n.isEmpty
  | n, b :: bs => leadsList n (b :: bs) || occursIn n bs

/-- Python membership test of one string inside another, needle first. -/
def pyIn (needle hay : String) : Bool := occursIn needle.data hay.data

/-- Python str.lower, restricted to its ASCII action. -/
def pyLower (s : String) : String := ⟨s.data.map Char.toLower⟩

/-- Python str.split on the single separator character plus, keeping empty
pieces, so that for example splitting the empty string yields one empty
piece. -/
def splitPlus : List Char → List (List Char)
  | [] => [[]]
  | c :: cs =>
    if c = '+' then [] :: splitPlus cs
    else
      match splitPlus cs with
      | g :: gs => (c :: g) :: gs
      | [] => [[c]]

/-- String-level wrapper of splitPlus. -/
def pySplitPlus (s : String) : List String := (splitPlus s.data).map fun l => String.mk l

/-- Python str.strip: remove whitespace from both ends. -/
def pyStrip (s : String) : String :=
  ⟨((s.data.dropWhile Char.isWhitespace).reverse.dropWhile Char.isWhitespace).reverse⟩

/-! Data model of paste_rules.json, as window_manager.py reads it. -/

/-- One entry of the app_rules array in paste_rules.json. The code reads each
field with dict.get, so an absent list field behaves as the empty list and an
absent paste_key falls back to the default key at use time (lines 107 to 124
of window_manager.py); the Option and empty-list defaults encode exactly
that. -/
structure PasteRule where
  window_class : List String
  title_contains : List String
  title_not_contains : List String
  paste_key : Option String
  deriving DecidableEq, Repr

/-- The rule configuration after loading: both top-level keys are always
present once load_paste_rules has filled in defaults. -/
structure PasteRuleSet where
  default_paste_key : String
  app_rules : List PasteRule
  deriving DecidableEq, Repr

/-! The Rule Store: load_paste_rules, lines 33 to 81. -/

/-- Observable states of the paste_rules.json resource as load_paste_rules
distinguishes them: the file is missing, reading or parsing it raises, or it
parses to an object whose two top-level keys may each be absent. -/
inductive RulesFile where
  | missing
  | corrupt
  | parsed (default_paste_key : Option String) (app_rules : Option (List PasteRule))
  deriving DecidableEq, Repr

/-- The built-in fallback default_rules of load_paste_rules, lines 47 to 50. -/
def default_rules : PasteRuleSet := { default_paste_key := "ctrl+v", app_rules := [] }

/-- The file-to-ruleset part of load_paste_rules, lines 46 to 81: a missing
file and corrupt content both fall back to default_rules, and absent keys in
otherwise valid content are filled in. The function is total: every branch
returns a ruleset, mirroring the try/except that lets no exception escape. -/
def parse_rules_file : RulesFile → PasteRuleSet
  | RulesFile.missing => default_rules
  | RulesFile.corrupt => default_rules
  | RulesFile.parsed d a =>
    { default_paste_key := d.getD "ctrl+v", app_rules := a.getD [] }

/-- load_paste_rules, lines 33 to 81, with the module global
_paste_rules_cache made an explicit argument. Returns the result, the new
cache, and whether persistent storage was read on this call. -/
def load_paste_rules (file : RulesFile) (cache : Option PasteRuleSet) :
    PasteRuleSet × Option PasteRuleSet × Bool :=
  match cache with
  | some rules => (rules, some rules, false)
  | none => (parse_rules_file file, some (parse_rules_file file), true)

/-! The Rule Matcher: the loop of get_paste_key_for_window, lines 84 to 135. -/

/-- The body of the rule loop, lines 105 to 121, deciding whether one rule
matches the already lowercased window class and title: the class must be a
member of the rule class list when that list is non-empty, every
title_contains phrase must occur in the title, and no title_not_contains
phrase may occur in it. Rule predicate strings are lowercased at comparison
time. -/
def rule_matches (rule : PasteRule) (window_class window_title : String) : Bool :=
  let rule_classes := rule.window_class.map pyLower
  if !rule_classes.isEmpty && !rule_classes.contains window_class then false
  else if !rule.title_contains.isEmpty &&
      !(rule.title_contains.all fun phrase => pyIn (pyLower phrase) window_title) then false
  else if !rule.title_not_contains.isEmpty &&
      (rule.title_not_contains.any fun phrase => pyIn (pyLower phrase) window_title) then false
  else true

/-- The first-match loop of get_paste_key_for_window, lines 104 to 135, over
the already lowercased window identity: the first matching rule wins and
contributes its paste_key (falling back to the default key when the matching
rule has none, line 124), and the default key is returned when no rule
matches. -/
def match_rules (rules : PasteRuleSet) (window_class window_title : String) : String :=
  match rules.app_rules.find? (fun rule => rule_matches rule window_class window_title) with
  | some rule => rule.paste_key.getD rules.default_paste_key
  | none => rules.default_paste_key

/-- Rule resolution for a known window identity: lines 101 and 102 lowercase
the class and title obtained from the inspector, then the loop runs. This is
the resolve contract of the specification. -/
def resolve (rules : PasteRuleSet) (window_class window_title : String) : String :=
  match_rules rules (pyLower window_class) (pyLower window_title)

/-! The OS oracle and the mutable state of the module. -/

/-- Oracle fixing the behaviour of every underlying OS and library call that
window_manager.py makes. A Bool field set to false, or an Option field set to
none, models the call failing or raising on that input; the embedding of each
Python function then follows its own try/except handling of that outcome. -/
structure OSEnv where
  focus_result : Nat → Bool
  class_query : Nat → Option String
  title_query : Nat → Option String
  pyperclip_available : Bool
  clipboard_ok : Bool
  hotkey_ok : Bool

/-- The mutable state the module touches: the per-handle window class cache
that get_window_class keeps on its own function object, and the OS clipboard
content. Window handles are naturals, with 0 playing the role of both None
and the null handle, matching the Python falsiness tests. -/
structure WMState where
  class_cache : List (Nat × String)
  clipboard : Option String
  deriving DecidableEq, Repr

/-! Key events synthesized by send_hotkey_windows, lines 297 to 321. -/

/-- Keys pynput can press here: the recognized modifier names map to special
keys and any other token is passed through as a literal key. -/
inductive PKey where
  | ctrl
  | shift
  | alt
  | cmd
  | insert
  | lit (name : String)
  deriving DecidableEq, Repr

/-- A single synthesized key transition. -/
inductive KeyEvent where
  | press (k : PKey)
  | release (k : PKey)
  deriving DecidableEq, Repr

/-- Externally visible actions of a paste attempt, in order: window
activation attempts and synthesized key events. -/
inductive WMEvent where
  | focusAttempt (window_id : Nat)
  | keyEvent (e : KeyEvent)
  deriving DecidableEq, Repr

/-- Token-to-key mapping of send_hotkey_windows, lines 303 to 315. -/
def key_of_part (part : String) : PKey :=
  if part = "ctrl" ∨ part = "control" then PKey.ctrl
  else if part = "shift" then PKey.shift
  else if part = "alt" then PKey.alt
  else if part = "win" ∨ part = "windows" ∨ part = "cmd" ∨ part = "meta" then PKey.cmd
  else if part = "insert" ∨ part = "ins" then PKey.insert
  else PKey.lit part

/-- Decomposition of a key combination string, line 301: split on plus, keep
the pieces that are non-empty after stripping, strip and lowercase each, and
map every token to its key. -/
def hotkey_keys (paste_key : String) : List PKey :=
  (((pySplitPlus paste_key).filter fun part => pyStrip part ≠ "").map
      fun part => pyLower (pyStrip part)).map key_of_part

/-- send_hotkey_windows, lines 297 to 321, as the key event trace it
synthesizes: press every key left to right, then release them in reverse
order. -/
def send_hotkey_windows (paste_key : String) : List KeyEvent :=
  (hotkey_keys paste_key).map KeyEvent.press
    ++ ((hotkey_keys paste_key).reverse).map KeyEvent.release

/-! The Window Inspector and Focus Controller, lines 157 to 230. -/

/-- focus_window, lines 210 to 230: a null handle fails without touching the
OS; otherwise one activation attempt is made and its outcome reported, with a
raised exception reported as false by the except branch. -/
def focus_window (window_id : Nat) (env : OSEnv) : Bool × List WMEvent :=
  if window_id = 0 then (false, [])
  else (env.focus_result window_id, [WMEvent.focusAttempt window_id])

/-- get_window_class, lines 157 to 185: a null handle yields the empty
string; otherwise the per-handle cache is consulted first, and on a miss the
OS is queried once, the lowercased result (or the empty string when the query
raises) is stored in the cache and returned. -/
def get_window_class (window_id : Nat) (env : OSEnv) (cache : List (Nat × String)) :
    String × List (Nat × String) :=
  if window_id = 0 then ("", cache)
  else
    match cache.lookup window_id with
    | some s => (s, cache)
    | none =>
      match env.class_query window_id with
      | some s => (pyLower s, (window_id, pyLower s) :: cache)
      | none => ("", (window_id, "") :: cache)

/-- get_window_title, lines 188 to 207: fetched fresh on every call, with the
empty string on a null handle or a raising query. -/
def get_window_title (window_id : Nat) (env : OSEnv) : String :=
  if window_id = 0 then "" else (env.title_query window_id).getD ""

/-- get_paste_key_for_window, lines 84 to 135: a null handle short-circuits
to the default key without consulting the rules; otherwise the class (cached)
and title (fresh) are fetched, lowercased and run through the rule loop. The
loaded ruleset is passed explicitly, standing for the process-wide cached
configuration. Returns the key and the possibly extended class cache. -/
def get_paste_key_for_window (rules : PasteRuleSet) (window_id : Nat) (env : OSEnv)
    (cache : List (Nat × String)) : String × List (Nat × String) :=
  if window_id = 0 then (rules.default_paste_key, cache)
  else
    let wc := get_window_class window_id env cache
    (match_rules rules (pyLower wc.1) (pyLower (get_window_title window_id env)), wc.2)

/-! The Paste Dispatcher: paste_text_clipboard, lines 233 to 275. -/

/-- Result of a paste attempt: the returned boolean, the state after the
call, and the externally visible actions in order. -/
structure PasteResult where
  ok : Bool
  state : WMState
  events : List WMEvent
  deriving DecidableEq, Repr

/-- The try block of paste_text_clipboard, lines 255 to 275: import
pyperclip (ImportError yields false), copy the text to the clipboard (a
raising copy yields false with the clipboard unchanged), resolve the paste
key through the rule engine, and synthesize the key combination (a raising
synthesis yields false). Every except branch returns false, so the block is
total. -/
def paste_try_block (text : String) (window_id : Nat) (rules : PasteRuleSet)
    (env : OSEnv) (st : WMState) (events : List WMEvent) : PasteResult :=
  if !env.pyperclip_available then { ok := false, state := st, events := events }
  else if !env.clipboard_ok then { ok := false, state := st, events := events }
  else
    let st1 : WMState := { st with clipboard := some text }
    let key_and_cache := get_paste_key_for_window rules window_id env st1.class_cache
    let st2 : WMState := { st1 with class_cache := key_and_cache.2 }
    if !env.hotkey_ok then { ok := false, state := st2, events := events }
    else
      { ok := true, state := st2,
        events := events ++ (send_hotkey_windows key_and_cache.1).map WMEvent.keyEvent }

/-- paste_text_clipboard, lines 233 to 275: empty text fails immediately; a
provided handle is focused first and an activation failure aborts the whole
attempt before the clipboard is touched; then the try block copies, resolves
and synthesizes. -/
def paste_text_clipboard (text : String) (window_id : Nat) (rules : PasteRuleSet)
    (env : OSEnv) (st : WMState) : PasteResult :=
  if text = "" then { ok := false, state := st, events := [] }
  else if window_id ≠ 0 then
    let focus := focus_window window_id env
    if !focus.1 then { ok := false, state := st, events := focus.2 }
    else paste_try_block text window_id rules env st focus.2
  else paste_try_block text window_id rules env st []

/-! Helper lemmas. -/

/-- Packing a valid scalar value into a character and reading it back is the
identity. -/
theorem toNat_char_ofNat_valid {n : Nat} (h : n.isValidChar) : (Char.ofNat n).toNat = n := by
  simp [Char.ofNat, h, Char.ofNatAux, Char.toNat, UInt32.toNat, BitVec.toNat_ofNatLt]

/-- Lowercasing a character twice is the same as lowercasing it once. -/
theorem char_toLower_idem (c : Char) : c.toLower.toLower = c.toLower := by
  unfold Char.toLower
  by_cases h : c.toNat ≥ 65 ∧ c.toNat ≤ 90
  · rw [if_pos h]
    have hv : (c.toNat + 32).isValidChar := Or.inl (by omega)
    have ht : (Char.ofNat (c.toNat + 32)).toNat = c.toNat + 32 := toNat_char_ofNat_valid hv
    rw [if_neg]
    rw [ht]
    omega
  · rw [if_neg h, if_neg h]

/-- Lowercasing a string is idempotent. -/
theorem pyLower_idem (s : String) : pyLower (pyLower s) = pyLower s := by
  have h : ∀ l : List Char, (l.map Char.toLower).map Char.toLower = l.map Char.toLower := by
    intro l
    induction l with
    | nil => rfl
    | cons a l ih => simp [List.map_cons, ih, char_toLower_idem]
  simp [pyLower, h]

/-- find? returns the element at the first index whose test passes. -/
theorem find_first_aux {α : Type} (p : α → Bool) (l : List α) :
    ∀ (i : Nat) (hi : i < l.length),
      p (l.get ⟨i, hi⟩) = true →
      (∀ (j : Nat) (hj : j < i), p (l.get ⟨j, Nat.lt_trans hj hi⟩) = false) →
      l.find? p = some (l.get ⟨i, hi⟩) := by
  induction l with
  | nil => intro i hi; exact absurd hi (Nat.not_lt_zero i)
  | cons a l ih =>
    intro i hi hp hb
    cases i with
    | zero => simp only [List.get] at hp; simp [List.find?, hp]
    | succ i =>
      have h0 : p a = false := hb 0 (Nat.succ_pos i)
      have htail := ih i (Nat.lt_of_succ_lt_succ hi) hp
        (fun j hj => hb (j + 1) (Nat.succ_lt_succ hj))
      simp [List.find?, h0, htail]

/-! Claim theorems. -/

/-- C3. For every state of the configuration file, loading the paste rules
never raises (parse_rules_file is total by construction): a missing file
yields exactly the default ruleset with key ctrl+v and no rules, corrupt
content yields the same default, and in otherwise valid content an absent
default_paste_key is filled with ctrl+v and an absent app_rules with the
empty list, while present values are kept rather than the file being
rejected. -/
theorem load_rules_never_fails :
    parse_rules_file RulesFile.missing
        = { default_paste_key := "ctrl+v", app_rules := [] }
  ∧ parse_rules_file RulesFile.corrupt
        = { default_paste_key := "ctrl+v", app_rules := [] }
  ∧ (∀ a : Option (List PasteRule),
      (parse_rules_file (RulesFile.parsed none a)).default_paste_key = "ctrl+v")
  ∧ (∀ d : Option String,
      (parse_rules_file (RulesFile.parsed d none)).app_rules = [])
  ∧ ∀ (d : String) (a : List PasteRule),
      parse_rules_file (RulesFile.parsed (some d) (some a))
        = { default_paste_key := d, app_rules := a } :=
  ⟨rfl, rfl, fun _ => rfl, fun _ => rfl, fun _ _ => rfl⟩

/-- C8. The rule loader reads persistent storage at most once per process:
the first call (empty cache) reads storage and populates the cache with its
result, and every subsequent call returns exactly the cached value without
reading storage, whatever the storage now holds, so all calls after the first
return the same ruleset. -/
theorem load_rules_cached_once (file1 file2 : RulesFile) (rules : PasteRuleSet) :
    (load_paste_rules file1 none).2.2 = true
  ∧ (load_paste_rules file1 none).2.1 = some (load_paste_rules file1 none).1
  ∧ load_paste_rules file2 (some rules) = (rules, some rules, false)
  ∧ (load_paste_rules file2 (load_paste_rules file1 none).2.1).1
        = (load_paste_rules file1 none).1
  ∧ (load_paste_rules file2 (load_paste_rules file1 none).2.1).2.2 = false :=
  ⟨rfl, rfl, rfl, rfl, rfl⟩

/-- C5. Pasting empty text returns false immediately, for every handle
including the null one, leaving the whole state (clipboard included)
untouched and performing no action at all, in particular no focus attempt. -/
theorem paste_empty_text (window_id : Nat) (rules : PasteRuleSet) (env : OSEnv)
    (st : WMState) :
    paste_text_clipboard "" window_id rules env st
      = { ok := false, state := st, events := [] } := rfl

/-- C10. The per-handle class lookup is memoized for the process lifetime:
for every non-null handle, once a first lookup (under any OS behaviour) has
produced a string and filled the cache, a second lookup under any OS
behaviour whatsoever returns exactly that string and leaves the cache
unchanged, hence without querying the OS again; in particular a failed first
query caches and keeps returning the empty string even when a later query
would succeed. -/
theorem window_class_memoized (window_id : Nat) (env1 env2 : OSEnv)
    (cache : List (Nat × String)) (h : window_id ≠ 0) :
    get_window_class window_id env2 (get_window_class window_id env1 cache).2
      = ((get_window_class window_id env1 cache).1,
         (get_window_class window_id env1 cache).2) := by
  simp only [get_window_class, if_neg h]
  cases hc : cache.lookup window_id with
  | some s => simp [hc]
  | none =>
    cases hq : env1.class_query window_id with
    | some s => simp [hc, hq, List.lookup]
    | none => simp [hc, hq, List.lookup]

/-- OS oracle whose class query raises, every other call succeeding. -/
def env_class_fail : OSEnv :=
  { focus_result := fun _ => true, class_query := fun _ => none,
    title_query := fun _ => none, pyperclip_available := true,
    clipboard_ok := true, hotkey_ok := true }

/-- OS oracle identical to env_class_fail except that the class query now
succeeds. -/
def env_class_ok : OSEnv :=
  { env_class_fail with class_query := fun _ => some "RealClass" }

/-- Witness for C10: handle 3, a first lookup whose OS query raises yields
the empty string, and the second lookup returns the cached empty string and
the unchanged cache even though its own OS query would have succeeded. -/
theorem window_class_memoized_witness :
    (get_window_class 3 env_class_fail []).1 = ""
  ∧ get_window_class 3 env_class_ok (get_window_class 3 env_class_fail []).2
      = ((get_window_class 3 env_class_fail []).1,
         (get_window_class 3 env_class_fail []).2) :=
  ⟨by decide, window_class_memoized 3 env_class_fail env_class_ok [] (by decide)⟩

/-- C2. Rule resolution is first-match-wins with a default: for every
ruleset and window identity, when no rule passes its three predicates the
default key is returned, and when some rule passes, the key of the one with
the smallest index is returned (an earlier matching rule always beats a later
one, and scanning contributes nothing past the first match). Determinism is
definitional: resolve is a pure function of its arguments. -/
theorem resolve_first_match (R : PasteRuleSet) (c t : String) :
    ((∀ r ∈ R.app_rules, rule_matches r (pyLower c) (pyLower t) = false) →
        resolve R c t = R.default_paste_key)
  ∧ ∀ (i : Nat) (hi : i < R.app_rules.length) (k : String),
      rule_matches (R.app_rules.get ⟨i, hi⟩) (pyLower c) (pyLower t) = true →
      (∀ (j : Nat) (hj : j < i),
          rule_matches (R.app_rules.get ⟨j, Nat.lt_trans hj hi⟩) (pyLower c) (pyLower t)
            = false) →
      (R.app_rules.get ⟨i, hi⟩).paste_key = some k →
      resolve R c t = k := by
  constructor
  · intro hnone
    unfold resolve match_rules
    have hfind : R.app_rules.find?
        (fun rule => rule_matches rule (pyLower c) (pyLower t)) = none := by
      rw [List.find?_eq_none]
      intro x hx
      simp [hnone x hx]
    rw [hfind]
  · intro i hi k hp hb hk
    unfold resolve match_rules
    rw [find_first_aux _ _ i hi hp hb]
    show (R.app_rules.get ⟨i, hi⟩).paste_key.getD R.default_paste_key = k
    rw [hk]
    rfl

/-- Sample rule passing every window, with a distinctive key. -/
def rule_w1 : PasteRule :=
  { window_class := [], title_contains := [], title_not_contains := [],
    paste_key := some "ctrl+shift+v" }

/-- Second sample rule also passing every window, with a different key. -/
def rule_w2 : PasteRule :=
  { window_class := [], title_contains := [], title_not_contains := [],
    paste_key := some "shift+ins" }

/-- Ruleset in which both rules pass every window. -/
def rules_w : PasteRuleSet := { default_paste_key := "ctrl+v", app_rules := [rule_w1, rule_w2] }

/-- Witness for C2: with two rules both passing, resolution returns the key
of the earlier one, never the later one and not the default. -/
theorem resolve_first_match_witness : resolve rules_w "Foo" "Bar" = "ctrl+shift+v" :=
  (resolve_first_match rules_w "Foo" "Bar").2 0 (by decide) "ctrl+shift+v" (by decide)
    (fun j hj => absurd hj (Nat.not_lt_zero j)) (by decide)

/-- Lowercase every predicate string of a rule, leaving its key unchanged. -/
def lower_rule (rule : PasteRule) : PasteRule :=
  { rule with
    window_class := rule.window_class.map pyLower,
    title_contains := rule.title_contains.map pyLower,
    title_not_contains := rule.title_not_contains.map pyLower }

/-- Lowercase every predicate string of every rule of a ruleset. -/
def lower_rule_set (rules : PasteRuleSet) : PasteRuleSet :=
  { rules with app_rules := rules.app_rules.map lower_rule }

/-- Lowercasing a list of strings twice equals lowercasing it once. -/
theorem map_pyLower_idem (l : List String) : (l.map pyLower).map pyLower = l.map pyLower := by
  induction l with
  | nil => rfl
  | cons a l ih => simp [List.map_cons, ih, pyLower_idem]

/-- Mapping preserves emptiness of a list. -/
theorem isEmpty_map {α β : Type} (f : α → β) (l : List α) : (l.map f).isEmpty = l.isEmpty := by
  cases l <;> rfl

/-- Whether a rule matches is unchanged by lowercasing its predicate
strings, since the match lowercases them anyway. -/
theorem rule_matches_lower (rule : PasteRule) (wc wt : String) :
    rule_matches (lower_rule rule) wc wt = rule_matches rule wc wt := by
  have hc : ((fun phrase => pyIn (pyLower phrase) wt) ∘ pyLower)
      = fun phrase => pyIn (pyLower phrase) wt :=
    funext fun p => by simp [Function.comp, pyLower_idem]
  unfold rule_matches lower_rule
  simp only [map_pyLower_idem, isEmpty_map, List.all_map, List.any_map, hc]

/-- The rule loop is unchanged by lowercasing predicate strings across the
whole ruleset. -/
theorem match_rules_lower (rules : PasteRuleSet) (wc wt : String) :
    match_rules (lower_rule_set rules) wc wt = match_rules rules wc wt := by
  unfold match_rules lower_rule_set
  simp only
  rw [List.find?_map]
  have hpred : ((fun rule => rule_matches rule wc wt) ∘ lower_rule)
      = fun rule => rule_matches rule wc wt :=
    funext fun r => rule_matches_lower r wc wt
  rw [hpred]
  cases hf : rules.app_rules.find? (fun rule => rule_matches rule wc wt) with
  | none => rfl
  | some r => simp [lower_rule]

/-- Rule keyed on the lowercase class name notepad, with a key distinct from
the default so that a match is observable. -/
def notepad_rule : PasteRule :=
  { window_class := ["notepad"], title_contains := [], title_not_contains := [],
    paste_key := some "ctrl+alt+v" }

/-- Ruleset holding only notepad_rule. -/
def notepad_rules : PasteRuleSet :=
  { default_paste_key := "ctrl+v", app_rules := [notepad_rule] }

/-- C7. Rule matching is case-invariant: resolution lowercases both the
window identity and the rule predicate strings before comparing, so resolving
a raw identity equals resolving its lowercased identity, resolving against a
ruleset with lowercased predicates equals resolving against the original, and
concretely a window of class Notepad with title Untitled - Notepad matches a
rule keyed on the lowercase class notepad. -/
theorem resolve_case_insensitive :
    (∀ (R : PasteRuleSet) (c t : String),
        resolve R c t = resolve R (pyLower c) (pyLower t))
  ∧ (∀ (R : PasteRuleSet) (c t : String),
        resolve (lower_rule_set R) c t = resolve R c t)
  ∧ resolve notepad_rules "Notepad" "Untitled - Notepad" = "ctrl+alt+v" := by
  refine ⟨?_, ?_, ?_⟩
  · intro R c t
    unfold resolve
    rw [pyLower_idem, pyLower_idem]
  · intro R c t
    unfold resolve
    exact match_rules_lower R (pyLower c) (pyLower t)
  · decide

/-- OS oracle in which every activation attempt fails and everything else
succeeds, modelling a target window that has closed. -/
def env_focus_fail : OSEnv :=
  { focus_result := fun _ => false, class_query := fun _ => some "Notepad",
    title_query := fun _ => some "Untitled", pyperclip_available := true,
    clipboard_ok := true, hotkey_ok := true }

/-- Counterexample for C1. The claim asserts that on an activation failure
the clipboard already contains the supplied text at the moment paste returns,
the copy having happened before the focus attempt. In the code the focus
attempt (lines 250 to 253) precedes the clipboard copy (line 259), so when
activation of handle 7 fails, paste returns false with the clipboard still
holding its previous content old, not the supplied hello. -/
theorem paste_focus_fail_counterexample :
    (paste_text_clipboard "hello" 7 default_rules env_focus_fail
        { class_cache := [], clipboard := some "old" }).ok = false
  ∧ (paste_text_clipboard "hello" 7 default_rules env_focus_fail
        { class_cache := [], clipboard := some "old" }).state.clipboard = some "old"
  ∧ (some "old" : Option String) ≠ some "hello" := by decide

/-- C1 amended. For every non-empty text and non-null handle, if activating
the target window fails then paste returns false and leaves the entire state
unchanged: the clipboard is populated only after a successful activation,
never before the focus attempt. -/
theorem paste_focus_fail_amended (text : String) (window_id : Nat)
    (rules : PasteRuleSet) (env : OSEnv) (st : WMState)
    (htext : text ≠ "") (hw : window_id ≠ 0)
    (hfocus : env.focus_result window_id = false) :
    (paste_text_clipboard text window_id rules env st).ok = false
  ∧ (paste_text_clipboard text window_id rules env st).state = st
  ∧ (paste_text_clipboard text window_id rules env st).state.clipboard = st.clipboard := by
  simp [paste_text_clipboard, focus_window, htext, hw, hfocus]

/-- Witness for C1 amended: a concrete failed activation returns false with
the clipboard untouched. -/
theorem paste_focus_fail_amended_witness :
    ("hello" ≠ "") ∧ ((7 : Nat) ≠ 0) ∧ env_focus_fail.focus_result 7 = false
  ∧ ((paste_text_clipboard "hello" 7 default_rules env_focus_fail
        { class_cache := [], clipboard := none }).ok = false
     ∧ (paste_text_clipboard "hello" 7 default_rules env_focus_fail
          { class_cache := [], clipboard := none }).state
        = { class_cache := [], clipboard := none }
     ∧ (paste_text_clipboard "hello" 7 default_rules env_focus_fail
          { class_cache := [], clipboard := none }).state.clipboard
        = ({ class_cache := [], clipboard := none } : WMState).clipboard) :=
  ⟨by decide, by decide, rfl,
    paste_focus_fail_amended "hello" 7 default_rules env_focus_fail
      { class_cache := [], clipboard := none } (by decide) (by decide) rfl⟩

/-- C4. Pasting non-empty text with no target handle performs no focus
attempt under any OS behaviour (the trace never holds a focus event), the
result does not depend on the rule list at all (resolution short-circuits to
the default key without evaluating any rule predicate), and when the
clipboard and key synthesis calls succeed the text lands on the clipboard,
the default key combination is emitted and true is returned. -/
theorem paste_no_handle (text : String) (rules : PasteRuleSet) (env : OSEnv)
    (st : WMState) (htext : text ≠ "") :
    (∀ e ∈ (paste_text_clipboard text 0 rules env st).events,
        ∀ w : Nat, e ≠ WMEvent.focusAttempt w)
  ∧ (∀ other_rules : List PasteRule,
        paste_text_clipboard text 0 { rules with app_rules := other_rules } env st
          = paste_text_clipboard text 0 rules env st)
  ∧ (env.pyperclip_available = true → env.clipboard_ok = true → env.hotkey_ok = true →
        (paste_text_clipboard text 0 rules env st).ok = true
      ∧ (paste_text_clipboard text 0 rules env st).state.clipboard = some text
      ∧ (paste_text_clipboard text 0 rules env st).events
          = (send_hotkey_windows rules.default_paste_key).map WMEvent.keyEvent) := by
  refine ⟨?_, ?_, ?_⟩
  · intro e he w
    cases hP : env.pyperclip_available <;> cases hC : env.clipboard_ok <;>
      cases hH : env.hotkey_ok <;>
        simp [paste_text_clipboard, paste_try_block, get_paste_key_for_window,
          htext, hP, hC, hH] at he
    obtain ⟨a, _, rfl⟩ := he
    simp
  · intro other_rules
    simp [paste_text_clipboard, paste_try_block, get_paste_key_for_window, htext]
  · intro hP hC hH
    simp [paste_text_clipboard, paste_try_block, get_paste_key_for_window,
      htext, hP, hC, hH]

/-- OS oracle in which every call succeeds. -/
def env_all_ok : OSEnv :=
  { focus_result := fun _ => true, class_query := fun _ => some "Notepad",
    title_query := fun _ => some "Untitled", pyperclip_available := true,
    clipboard_ok := true, hotkey_ok := true }

/-- Witness for C4: a concrete paste with no handle emits the default
combination, fills the clipboard and succeeds with no focus attempt. -/
theorem paste_no_handle_witness :
    ("hi" ≠ "")
  ∧ ((∀ e ∈ (paste_text_clipboard "hi" 0 default_rules env_all_ok
          { class_cache := [], clipboard := none }).events,
        ∀ w : Nat, e ≠ WMEvent.focusAttempt w)
     ∧ (∀ other_rules : List PasteRule,
          paste_text_clipboard "hi" 0
              { default_rules with app_rules := other_rules } env_all_ok
              { class_cache := [], clipboard := none }
            = paste_text_clipboard "hi" 0 default_rules env_all_ok
              { class_cache := [], clipboard := none })
     ∧ (env_all_ok.pyperclip_available = true → env_all_ok.clipboard_ok = true →
          env_all_ok.hotkey_ok = true →
          (paste_text_clipboard "hi" 0 default_rules env_all_ok
              { class_cache := [], clipboard := none }).ok = true
        ∧ (paste_text_clipboard "hi" 0 default_rules env_all_ok
              { class_cache := [], clipboard := none }).state.clipboard = some "hi"
        ∧ (paste_text_clipboard "hi" 0 default_rules env_all_ok
              { class_cache := [], clipboard := none }).events
            = (send_hotkey_windows default_rules.default_paste_key).map
                WMEvent.keyEvent)) :=
  ⟨by decide,
    paste_no_handle "hi" default_rules env_all_ok
      { class_cache := [], clipboard := none } (by decide)⟩

/-- C6. Decomposing a key combination maps the recognized names (ctrl and
control, shift, alt, win and windows and cmd and meta, insert and ins) to
their modifier keys, passes every unrecognized token through as a literal key
rather than failing, and the synthesized event sequence presses the keys left
to right as written and releases them in exact reverse order; concretely
ctrl+shift+v presses ctrl, shift, v and releases v, shift, ctrl. -/
theorem hotkey_decomposition :
    send_hotkey_windows "ctrl+shift+v" =
      [KeyEvent.press PKey.ctrl, KeyEvent.press PKey.shift,
       KeyEvent.press (PKey.lit "v"), KeyEvent.release (PKey.lit "v"),
       KeyEvent.release PKey.shift, KeyEvent.release PKey.ctrl]
  ∧ (key_of_part "ctrl" = PKey.ctrl ∧ key_of_part "control" = PKey.ctrl
     ∧ key_of_part "shift" = PKey.shift ∧ key_of_part "alt" = PKey.alt
     ∧ key_of_part "win" = PKey.cmd ∧ key_of_part "windows" = PKey.cmd
     ∧ key_of_part "cmd" = PKey.cmd ∧ key_of_part "meta" = PKey.cmd
     ∧ key_of_part "insert" = PKey.insert ∧ key_of_part "ins" = PKey.insert)
  ∧ (∀ part : String,
      part ∉ (["ctrl", "control", "shift", "alt", "win", "windows", "cmd",
               "meta", "insert", "ins"] : List String) →
      key_of_part part = PKey.lit part)
  ∧ ∀ paste_key : String,
      send_hotkey_windows paste_key
        = (hotkey_keys paste_key).map KeyEvent.press
            ++ ((hotkey_keys paste_key).reverse).map KeyEvent.release := by
  refine ⟨by decide, by decide, ?_, fun _ => rfl⟩
  intro part hp
  simp only [List.mem_cons, List.not_mem_nil, or_false, not_or] at hp
  obtain ⟨h1, h2, h3, h4, h5, h6, h7, h8, h9, h10⟩ := hp
  simp [key_of_part, h1, h2, h3, h4, h5, h6, h7, h8, h9, h10]

/-- Witness for C6: the unrecognized token f2 passes through as a literal
key. -/
theorem hotkey_decomposition_witness :
    ("f2" ∉ (["ctrl", "control", "shift", "alt", "win", "windows", "cmd",
              "meta", "insert", "ins"] : List String))
  ∧ key_of_part "f2" = PKey.lit "f2" :=
  ⟨by decide, hotkey_decomposition.2.2.1 "f2" (by decide)⟩

/-- OS oracle in which the window class and title queries raise and every
other call succeeds. -/
def env_query_fail : OSEnv :=
  { focus_result := fun _ => true, class_query := fun _ => none,
    title_query := fun _ => none, pyperclip_available := true,
    clipboard_ok := true, hotkey_ok := true }

/-- Counterexample for C9. The claim maps every listed failure mode,
window-query failure included, to a false return from paste. In the code a
raising class or title query is absorbed inside get_window_class and
get_window_title as an empty string (lines 182 to 185 and 206 to 207), the
rule engine then resolves over empty identity, and paste returns true: here
both queries raise on handle 5 and the paste nevertheless succeeds. -/
theorem paste_query_fail_counterexample :
    (paste_text_clipboard "hello" 5 default_rules env_query_fail
        { class_cache := [], clipboard := none }).ok = true
  ∧ true ≠ false := by decide

/-- C9 amended. paste never lets a fault escape: it is a total function into
a boolean result over every OS behaviour (every underlying call failing or
raising included), and it returns true exactly when the text is non-empty,
the activation succeeds whenever a handle was supplied, pyperclip imports,
the clipboard copy succeeds and the key synthesis succeeds. Clipboard
unavailability and key-synthesis failure are therefore mapped to false, while
window-query failures do not appear in the characterization at all: they are
absorbed as empty identity strings and leave the returned boolean
unaffected. -/
theorem paste_boolean_totality (text : String) (window_id : Nat)
    (rules : PasteRuleSet) (env : OSEnv) (st : WMState) :
    (paste_text_clipboard text window_id rules env st).ok = true
      ↔ (text ≠ ""
          ∧ (window_id ≠ 0 → env.focus_result window_id = true)
          ∧ env.pyperclip_available = true
          ∧ env.clipboard_ok = true
          ∧ env.hotkey_ok = true) := by
  by_cases htext : text = ""
  · subst htext
    simp [paste_text_clipboard]
  · by_cases hw : window_id = 0
    · subst hw
      cases hP : env.pyperclip_available <;> cases hC : env.clipboard_ok <;>
        cases hH : env.hotkey_ok <;>
          simp [paste_text_clipboard, paste_try_block, htext, hP, hC, hH]
    · cases hF : env.focus_result window_id <;> cases hP : env.pyperclip_available <;>
        cases hC : env.clipboard_ok <;> cases hH : env.hotkey_ok <;>
          simp [paste_text_clipboard, paste_try_block, focus_window,
            htext, hw, hF, hP, hC, hH]

/-- Witness for C9 amended: the characterization instantiated at a concrete
successful paste. -/
theorem paste_boolean_totality_witness :
    (paste_text_clipboard "hi" 0 default_rules env_all_ok
        { class_cache := [], clipboard := none }).ok = true
      ↔ ("hi" ≠ ""
          ∧ ((0 : Nat) ≠ 0 → env_all_ok.focus_result 0 = true)
          ∧ env_all_ok.pyperclip_available = true
          ∧ env_all_ok.clipboard_ok = true
          ∧ env_all_ok.hotkey_ok = true) :=
  paste_boolean_totality "hi" 0 default_rules env_all_ok
    { class_cache := [], clipboard := none }

end DictateWin
